import Mathlib

/-!
Shallow embedding of `scripts/auto_login.py` (ClawCloud automated GitHub
login).  Pure decision logic is translated one-to-one; browser and network
effects are modelled by explicit inputs (a `World` record of what the
environment would return) and explicit outputs (the `RunResult` record).
-/

/-! ## Python string containment (`needle in haystack`) -/

/-- `charsPre n h` is true when the char list `n` is a prefix of `h`. -/
def charsPre : List Char → List Char → Bool
  | [], _ => true
  | _ :: _, [] => false
  | a :: as, b :: bs => a == b && charsPre as bs

/-- `charsSub n h` is true when `n` occurs contiguously inside `h`. -/
def charsSub (needle : List Char) : List Char → Bool
  | [] => charsPre needle []
  | c :: cs => charsPre needle (c :: cs) || charsSub needle cs

/-- Python's `needle in haystack` for strings: substring test. -/
def inStr (needle haystack : String) : Bool :=
  charsSub needle.toList haystack.toList

/-- Python's `s.lower()` (the script only lower-cases ASCII URLs and page
text, where `Char.toLower` agrees with Python). -/
def pyLower (s : String) : String :=
  String.mk (s.toList.map Char.toLower)

/-! ## Data model: cookies, page state after credential submission -/

/-- A browser cookie as exposed by `context.cookies()`: the script only
inspects `name`, `value` and `domain`; a cookie dict missing `domain`
is modelled by `domain = ""` (the Python code reads `c.get('domain', '')`). -/
structure Cookie where
  name : String
  value : String
  domain : String
deriving DecidableEq, Repr

/-- The observable page state right after the GitHub credential form was
submitted (`login_github`, after the `wait_for_load_state` call):
the current URL, the full page content, the text of a visible
`.flash-error` banner if any (`check_github_error`), and whether an
OTP input is visible (`check_2fa`'s locator probe). -/
structure PageAfterLogin where
  url : String
  content : String
  errorBanner : Option String
  otpVisible : Bool
deriving DecidableEq, Repr

/-! ## Classifiers (auto_login.py lines 123-150) -/

/-- `check_github_error`: text of the `.flash-error` banner when visible. -/
def check_github_error (p : PageAfterLogin) : Option String :=
  p.errorBanner

/-- `check_device_verification`: URL (lower-cased) contains a
verification-path marker, or the page content (lower-cased) contains one
of four fixed keywords. -/
def check_device_verification (p : PageAfterLogin) : Bool :=
  let url := pyLower p.url
  if inStr "verified-device" url || inStr "device-verification" url then
    true
  else
    let content := pyLower p.content
    ["verify your device", "device verification", "check your email",
      "verification code"].any (fun kw => inStr kw content)

/-- `check_2fa`: URL contains `two-factor` (not lower-cased in the source),
or an `input[name="otp"], input[name="app_otp"]` element is visible. -/
def check_2fa (p : PageAfterLogin) : Bool :=
  if inStr "two-factor" p.url then true else p.otpVisible

/-- `login_github`, from the point where the form has been submitted.
`formOk` models whether the three fill/click interactions succeeded (each
returns `False` from the Python function on exception).  Then the source
checks, in order: error banner, device verification, two-factor, and the
still-on-login-page content heuristics; reaching the end returns `True`. -/
def login_github (formOk : Bool) (p : PageAfterLogin) : Bool :=
  if !formOk then false
  else
    match check_github_error p with
    | some _ => false
    | none =>
      if check_device_verification p then false
      else if check_2fa p then false
      else if inStr "github.com/login" p.url || inStr "github.com/session" p.url then
        if inStr "Incorrect username or password" p.content then false
        else if inStr "too many" (pyLower p.content) then false
        else true
      else true

/-! ## Selector helper (`find_and_click`, lines 110-121) -/

/-- Outcome of probing one selector: `some b` means `is_visible` returned
`b`; `none` means the locator/visibility probe raised (swallowed by the
bare `except`). -/
abbrev Probe := String → Option Bool

/-- `find_and_click`: walk the candidate selectors in order; the first one
whose probe reports a visible element is clicked and returned; anything
else (invisible or raising) is skipped.  `none` models returning `False`
after the loop, which the source reaches without raising. -/
def find_and_click (probe : Probe) : List String → Option String
  | [] => none
  | s :: rest =>
    if probe s = some true then some s else find_and_click probe rest

/-! ## Redirect-wait loop (`wait_redirect`, lines 241-267) -/

/-- Success test of the poll loop: URL contains `claw.cloud` and its
lower-casing does not contain `signin`. -/
def redirectSuccess (url : String) : Bool :=
  inStr "claw.cloud" url && !inStr "signin" (pyLower url)

/-- Stuck test of the poll loop: URL contains `github.com/login` or
`github.com/session`. -/
def redirectStuck (url : String) : Bool :=
  inStr "github.com/login" url || inStr "github.com/session" url

/-- One run of `for i in range(max_wait)`, starting at index `i` with
`fuel` iterations left.  At each index the source first tests success,
then (only when `i > 15`) the stuck test; otherwise it sleeps and
continues.  Returns (reported result, index at which the loop stopped);
fuel 0 is the `for` loop ending, which returns `False`. -/
def wait_redirect_go (urls : Nat → String) : Nat → Nat → Bool × Nat
  | i, 0 => (false, i)
  | i, fuel + 1 =>
    if redirectSuccess (urls i) then (true, i)
    else if decide (15 < i) && redirectStuck (urls i) then (false, i)
    else wait_redirect_go urls (i + 1) fuel

/-- `wait_redirect(page, max_wait=45)` over the URL sequence the page
would show at each 1-second poll. -/
def wait_redirect (urls : Nat → String) (max_wait : Nat := 45) : Bool × Nat :=
  wait_redirect_go urls 0 max_wait

/-! ## Login verification (`verify_login`, lines 269-296) -/

/-- The cookie filter used by the source: `'claw' in c.get('domain', '')`. -/
def clawCookieFilter (c : Cookie) : Bool :=
  inStr "claw" c.domain

/-- `verify_login`: fails when the final URL is off `claw.cloud`, or its
lower-casing contains `signin`, or the filtered cookie list is empty;
otherwise writes the filtered list to `cookies.json`.  `none` models
`return False` with no file written; `some l` models the file holding
exactly `l` and `return True`. -/
def verify_login (current_url : String) (cookies : List Cookie) :
    Option (List Cookie) :=
  if !inStr "claw.cloud" current_url then none
  else if inStr "signin" (pyLower current_url) then none
  else
    let claw_cookies := cookies.filter clawCookieFilter
    if claw_cookies.isEmpty then none else some claw_cookies

/-- Spec-side predicate, for comparison with `clawCookieFilter`: a cookie
"scoped to the target domain" (the target domain is
`eu-central-1.run.claw.cloud`, i.e. the `claw.cloud` site). -/
def scopedToTargetDomain (c : Cookie) : Bool :=
  inStr "claw.cloud" c.domain

/-! ## Keepalive (`keepalive`, lines 298-322) -/

/-- `keepalive` over the observed outcome of each of its `page.goto`
navigations: `some url` is the URL the page ended up at, `none` is an
exception (logged and skipped).  A landed URL whose lower-casing contains
`signin` returns `False`; otherwise the next page is tried and the
function ends with `True`. -/
def keepalive : List (Option String) → Bool
  | [] => true
  | some url :: rest =>
    if inStr "signin" (pyLower url) then false else keepalive rest
  | none :: rest => keepalive rest

/-! ## Notification payload (`send_notification`, lines 324-355) -/

/-- `send_notification`'s payload, assuming Telegram is configured: the
log lines included in the message (`self.logs[-8:]`) and the photos
attached (all screenshots on failure, only the last one on success,
nothing when no screenshot was taken). -/
def send_notification (logs screenshots : List String) (success : Bool) :
    List String × List String :=
  (logs.drop (logs.length - 8),
    if screenshots.isEmpty then []
    else if success then [screenshots.getLastD ""]
    else screenshots)

/-! ## Credential validation (`validate_credentials`, lines 98-108) -/

/-- Python truthiness of `os.environ.get(...)`: `None` and `""` are falsy. -/
def envTruthy : Option String → Bool
  | none => false
  | some s => !s.isEmpty

/-- `validate_credentials`: requires both `GH_USERNAME` and `GH_PASSWORD`
to be truthy. -/
def validate_credentials (username password : Option String) : Bool :=
  if !envTruthy username then false
  else if !envTruthy password then false
  else true

/-! ## The `run` flow (lines 357-466) -/

/-- Everything the environment feeds into one run: the two credential
environment variables, the URL shown after the initial navigation to the
sign-in page, whether the GitHub button click helper succeeded, the URL
after that click, whether the credential-form interactions succeeded, the
page state after submission, the URL sequence seen by the redirect poll
loop, the context's cookies, and the keepalive navigation outcomes. -/
structure World where
  gh_username : Option String
  gh_password : Option String
  initialUrl : String
  buttonFound : Bool
  afterClickUrl : String
  formOk : Bool
  loginPage : PageAfterLogin
  urls : Nat → String
  cookies : List Cookie
  keepaliveResults : List (Option String)

/-- Observable outcome of a run: process exit code, whether a browser was
launched, the `success` flag of the notification that was sent (`none` if
none was), whether the redirect-wait loop was entered, and the contents
of `cookies.json` if it was written. -/
structure RunResult where
  exitCode : Nat
  browserStarted : Bool
  notifySuccess : Option Bool
  reachedRedirectWait : Bool
  cookieFile : Option (List Cookie)
deriving DecidableEq, Repr

/-- Steps 2-6 of `run` (from "点击 GitHub 登录" on): click the GitHub
button, run `login_github` when the click landed on GitHub's credential
form, poll for the redirect, verify, then keepalive (result unused). -/
def runFromButton (w : World) : RunResult :=
  if !w.buttonFound then
    { exitCode := 1, browserStarted := true, notifySuccess := some false,
      reachedRedirectWait := false, cookieFile := none }
  else if (inStr "github.com/login" w.afterClickUrl
        || inStr "github.com/session" w.afterClickUrl)
      && !login_github w.formOk w.loginPage then
    { exitCode := 1, browserStarted := true, notifySuccess := some false,
      reachedRedirectWait := false, cookieFile := none }
  else
    let r := wait_redirect w.urls 45
    if !r.1 then
      { exitCode := 1, browserStarted := true, notifySuccess := some false,
        reachedRedirectWait := true, cookieFile := none }
    else
      match verify_login (w.urls r.2) w.cookies with
      | none =>
        { exitCode := 1, browserStarted := true, notifySuccess := some false,
          reachedRedirectWait := true, cookieFile := none }
      | some cs =>
        let _ := keepalive w.keepaliveResults
        { exitCode := 0, browserStarted := true, notifySuccess := some true,
          reachedRedirectWait := true, cookieFile := some cs }

/-- `run`: validate credentials (no browser on failure), open the sign-in
page; when the landed URL is already off the sign-in path, try
`verify_login` directly and, on success, keepalive (result unused) and
exit 0 — on that branch's verification failure the source falls through
to the GitHub button step. -/
def run (w : World) : RunResult :=
  if !validate_credentials w.gh_username w.gh_password then
    { exitCode := 1, browserStarted := false, notifySuccess := some false,
      reachedRedirectWait := false, cookieFile := none }
  else if !inStr "signin" (pyLower w.initialUrl) then
    match verify_login w.initialUrl w.cookies with
    | some cs =>
      let _ := keepalive w.keepaliveResults
      { exitCode := 0, browserStarted := true, notifySuccess := some true,
        reachedRedirectWait := false, cookieFile := some cs }
    | none => runFromButton w
  else runFromButton w

/-! ## Lemmas about the redirect-wait loop -/

lemma wait_redirect_go_succeeds (urls : Nat → String) (i fuel : Nat)
    (hs : redirectSuccess (urls i) = true) :
    wait_redirect_go urls i (fuel + 1) = (true, i) := by
  simp [wait_redirect_go, hs]

lemma wait_redirect_go_stuck (urls : Nat → String) (i fuel : Nat)
    (hs : redirectSuccess (urls i) = false) (h15 : 15 < i)
    (hst : redirectStuck (urls i) = true) :
    wait_redirect_go urls i (fuel + 1) = (false, i) := by
  simp [wait_redirect_go, hs, hst, h15]

lemma wait_redirect_go_step (urls : Nat → String) (i fuel : Nat)
    (hs : redirectSuccess (urls i) = false)
    (hng : i ≤ 15 ∨ redirectStuck (urls i) = false) :
    wait_redirect_go urls i (fuel + 1) = wait_redirect_go urls (i + 1) fuel := by
  have hc : (decide (15 < i) && redirectStuck (urls i)) = false := by
    rcases hng with h | h
    · have : ¬ 15 < i := by omega
      simp [this]
    · simp [h]
  simp [wait_redirect_go, hs, hc]

lemma wait_redirect_go_skip (urls : Nat → String) :
    ∀ (n i fuel : Nat),
      (∀ j, i ≤ j → j < i + n →
        redirectSuccess (urls j) = false ∧
          (j ≤ 15 ∨ redirectStuck (urls j) = false)) →
      wait_redirect_go urls i (n + fuel) = wait_redirect_go urls (i + n) fuel := by
  intro n
  induction n with
  | zero => intro i fuel _; rw [Nat.zero_add, Nat.add_zero]
  | succ m ih =>
    intro i fuel h
    have h0 := h i (Nat.le_refl i) (by omega)
    have e1 : m + 1 + fuel = (m + fuel) + 1 := by omega
    rw [e1, wait_redirect_go_step urls i (m + fuel) h0.1 h0.2,
      ih (i + 1) fuel (fun j h1 h2 => h j (by omega) (by omega))]
    have e2 : i + 1 + m = i + (m + 1) := by omega
    rw [e2]

lemma wait_redirect_go_bound (urls : Nat → String) :
    ∀ (fuel i : Nat), (wait_redirect_go urls i fuel).2 ≤ i + fuel := by
  intro fuel
  induction fuel with
  | zero => intro i; simp [wait_redirect_go]
  | succ n ih =>
    intro i
    rw [wait_redirect_go]
    split
    · simp
    · split
      · simp
      · have := ih (i + 1)
        omega

lemma wait_redirect_go_no_success (urls : Nat → String) :
    ∀ (fuel i : Nat),
      (∀ j, i ≤ j → j < i + fuel → redirectSuccess (urls j) = false) →
      (wait_redirect_go urls i fuel).1 = false := by
  intro fuel
  induction fuel with
  | zero => intro i _; rfl
  | succ n ih =>
    intro i h
    have h0 := h i (Nat.le_refl i) (by omega)
    rw [wait_redirect_go]
    simp only [h0, Bool.false_eq_true, if_false]
    split
    · rfl
    · exact ih (i + 1) (fun j h1 h2 => h j (by omega) (by omega))

/-! ## Claim C2: stuck sequences fail early, inside the budget -/

/-- Constant URL sequence that never leaves GitHub's login path. -/
def urlsStuck : Nat → String := fun _ => "https://github.com/login"

/-- URL sequence stuck on GitHub's session path for the first 16 polls,
then landing on the target domain. -/
def urlsGrace : Nat → String :=
  fun i => if i < 16 then "https://github.com/session"
    else "https://eu-central-1.run.claw.cloud/"

/-- C2: a URL sequence that stays on the identity provider's login/session
paths past the 15th iteration makes the redirect-wait loop report failure
strictly before exhausting the 45-iteration budget (it stops after the
grace period, at iteration 16); and the stuck check is indeed suppressed
throughout the grace period: a sequence stuck only on iterations 0-15 and
successful at 16 is reported as a success. -/
theorem wait_redirect_stuck_fails_early :
    (∀ urls : Nat → String,
      (∀ i, i ≤ 16 →
        redirectSuccess (urls i) = false ∧ redirectStuck (urls i) = true) →
      (wait_redirect urls 45).1 = false ∧
        15 < (wait_redirect urls 45).2 ∧ (wait_redirect urls 45).2 < 45) ∧
    (∀ urls : Nat → String,
      (∀ i, i < 16 →
        redirectSuccess (urls i) = false ∧ redirectStuck (urls i) = true) →
      redirectSuccess (urls 16) = true →
      wait_redirect urls 45 = (true, 16)) := by
  constructor
  · intro urls h
    have key : wait_redirect urls 45 = (false, 16) := by
      have hskip := wait_redirect_go_skip urls 16 0 29
        (fun j h1 h2 => ⟨(h j (by omega)).1, Or.inl (by omega)⟩)
      have h16 := h 16 (by omega)
      have hstuck := wait_redirect_go_stuck urls 16 28 h16.1 (by omega) h16.2
      show wait_redirect_go urls 0 45 = (false, 16)
      calc wait_redirect_go urls 0 45
          = wait_redirect_go urls (0 + 16) 29 := hskip
        _ = (false, 16) := hstuck
    rw [key]
    exact ⟨rfl, by omega, by omega⟩
  · intro urls h hs
    have hskip := wait_redirect_go_skip urls 16 0 29
      (fun j h1 h2 => ⟨(h j (by omega)).1, Or.inl (by omega)⟩)
    have hsucc := wait_redirect_go_succeeds urls 16 28 hs
    show wait_redirect_go urls 0 45 = (true, 16)
    calc wait_redirect_go urls 0 45
        = wait_redirect_go urls (0 + 16) 29 := hskip
      _ = (true, 16) := hsucc

/-- C2 witness: both parts of the theorem applied to concrete sequences. -/
theorem wait_redirect_stuck_fails_early_witness :
    ((wait_redirect urlsStuck 45).1 = false ∧
      15 < (wait_redirect urlsStuck 45).2 ∧
      (wait_redirect urlsStuck 45).2 < 45) ∧
    wait_redirect urlsGrace 45 = (true, 16) :=
  ⟨wait_redirect_stuck_fails_early.1 urlsStuck (by decide),
   wait_redirect_stuck_fails_early.2 urlsGrace (by decide) (by decide)⟩

/-! ## Claim C4: termination and the budget -/

/-- URL sequence stuck on GitHub's login path until iteration 19 and on
the target domain from iteration 20 on: it reaches the target within the
45-iteration budget, yet the loop gives up at iteration 16. -/
def urlsLateCex : Nat → String :=
  fun i => if i < 20 then "https://github.com/login"
    else "https://eu-central-1.run.claw.cloud/"

/-- C4 counterexample: a sequence that reaches the target domain off the
sign-in path at iteration 20 — within the budget — on which the loop
nevertheless reports failure (the stuck check fires at iteration 16), so
"reaches the target within the budget implies success" is false as
stated. -/
theorem wait_redirect_reach_within_budget_not_success :
    (20 < 45 ∧ redirectSuccess (urlsLateCex 20) = true) ∧
    wait_redirect urlsLateCex 45 = (false, 16) :=
  ⟨⟨by omega, by decide⟩, by decide⟩

/-- C4 (amended): the loop always stops by iteration 45; a sequence that
reaches the target domain off the sign-in path at some iteration `k`
within the budget — without previously being on the login/session paths
after the grace period — is reported as a success at iteration `k ≤ 45`;
and when no iteration within the budget is a success the loop reports
failure. -/
theorem wait_redirect_budget :
    (∀ urls : Nat → String, (wait_redirect urls 45).2 ≤ 45) ∧
    (∀ (urls : Nat → String) (k : Nat), k < 45 →
      (∀ j, j < k → redirectSuccess (urls j) = false ∧
        (j ≤ 15 ∨ redirectStuck (urls j) = false)) →
      redirectSuccess (urls k) = true →
      wait_redirect urls 45 = (true, k)) ∧
    (∀ urls : Nat → String,
      (∀ i, i < 45 → redirectSuccess (urls i) = false) →
      (wait_redirect urls 45).1 = false) := by
  refine ⟨?_, ?_, ?_⟩
  · intro urls
    have h := wait_redirect_go_bound urls 45 0
    simpa [wait_redirect] using h
  · intro urls k hk h hsk
    have hskip := wait_redirect_go_skip urls k 0 (45 - k)
      (fun j h1 h2 => h j (by omega))
    obtain ⟨m, hm⟩ : ∃ m, 45 - k = m + 1 := ⟨45 - k - 1, by omega⟩
    have hsucc := wait_redirect_go_succeeds urls k m hsk
    show wait_redirect_go urls 0 45 = (true, k)
    have e : (45 : Nat) = k + (45 - k) := by omega
    calc wait_redirect_go urls 0 45
        = wait_redirect_go urls 0 (k + (45 - k)) := by rw [← e]
      _ = wait_redirect_go urls (0 + k) (45 - k) := hskip
      _ = wait_redirect_go urls k (m + 1) := by rw [Nat.zero_add, hm]
      _ = (true, k) := hsucc
  · intro urls h
    have hns := wait_redirect_go_no_success urls 45 0 (fun j h1 h2 => h j (by omega))
    simpa [wait_redirect] using hns

/-- URL sequence reaching the target domain at iteration 3. -/
def urlsQuick : Nat → String :=
  fun i => if i < 3 then "https://github.com/login"
    else "https://eu-central-1.run.claw.cloud/"

/-- Constant URL sequence on GitHub's session path, for the timeout part. -/
def urlsStuckB : Nat → String := fun _ => "https://github.com/session"

/-- C4 witness: the three parts of the budget theorem applied to concrete
sequences. -/
theorem wait_redirect_budget_witness :
    wait_redirect urlsQuick 45 = (true, 3) ∧
    (wait_redirect urlsQuick 45).2 ≤ 45 ∧
    (wait_redirect urlsStuckB 45).1 = false :=
  ⟨wait_redirect_budget.2.1 urlsQuick 3 (by omega) (by decide) (by decide),
   wait_redirect_budget.1 urlsQuick,
   wait_redirect_budget.2.2 urlsStuckB (by decide)⟩

/-! ## Claim C1: the persisted cookie set -/

/-- A cookie whose domain contains `claw` without being scoped to the
`claw.cloud` site: a foreign-domain cookie that `verify_login` persists. -/
def foreignClawCookie : Cookie :=
  { name := "sid", value := "v", domain := "clawstore.example.com" }

/-- C1 counterexample: on a successful final URL, a cookie of the foreign
domain `clawstore.example.com` — not scoped to the target domain — is
persisted to `cookies.json`, because the source filters on the substring
`claw`, not on the target domain. -/
theorem verify_login_persists_foreign_cookie :
    verify_login "https://eu-central-1.run.claw.cloud/dashboard"
        [foreignClawCookie] = some [foreignClawCookie] ∧
    scopedToTargetDomain foreignClawCookie = false := by
  exact ⟨by decide, by decide⟩

/-- C1 (amended): on a final URL on the target domain and off the sign-in
path, the artifact contains exactly the cookies whose domain contains the
substring `claw` (a superset of the target-domain-scoped ones); every
cookie whose domain lacks that substring is excluded; and verification
fails with no file written when that filtered set is empty. -/
theorem verify_login_writes_claw_filter (url : String) (cookies : List Cookie)
    (h1 : inStr "claw.cloud" url = true)
    (h2 : inStr "signin" (pyLower url) = false) :
    (verify_login url cookies =
      if (cookies.filter clawCookieFilter).isEmpty then none
      else some (cookies.filter clawCookieFilter)) ∧
    (∀ l, verify_login url cookies = some l →
      ∀ c ∈ l, clawCookieFilter c = true) ∧
    (cookies.filter clawCookieFilter = [] → verify_login url cookies = none) := by
  have hv : verify_login url cookies =
      if (cookies.filter clawCookieFilter).isEmpty then none
      else some (cookies.filter clawCookieFilter) := by
    simp [verify_login, h1, h2]
  refine ⟨hv, ?_, ?_⟩
  · intro l hl c hc
    rw [hv] at hl
    by_cases he : (cookies.filter clawCookieFilter).isEmpty
    · simp [he] at hl
    · simp [he] at hl
      subst hl
      exact (List.mem_filter.mp hc).2
  · intro he
    rw [hv, he]
    simp

/-- C1 witness: a target-domain cookie is kept, a GitHub cookie is
dropped, and an empty filtered set gives no file. -/
theorem verify_login_writes_claw_filter_witness :
    (verify_login "https://eu-central-1.run.claw.cloud/dashboard"
        [⟨"token", "t", ".claw.cloud"⟩, ⟨"gh", "g", "github.com"⟩]
      = if ([(⟨"token", "t", ".claw.cloud"⟩ : Cookie),
            ⟨"gh", "g", "github.com"⟩].filter clawCookieFilter).isEmpty
        then none
        else some ([⟨"token", "t", ".claw.cloud"⟩,
            ⟨"gh", "g", "github.com"⟩].filter clawCookieFilter)) ∧
    verify_login "https://eu-central-1.run.claw.cloud/dashboard"
        [⟨"gh", "g", "github.com"⟩] = none :=
  ⟨(verify_login_writes_claw_filter
      "https://eu-central-1.run.claw.cloud/dashboard"
      [⟨"token", "t", ".claw.cloud"⟩, ⟨"gh", "g", "github.com"⟩]
      (by decide) (by decide)).1,
   (verify_login_writes_claw_filter
      "https://eu-central-1.run.claw.cloud/dashboard"
      [⟨"gh", "g", "github.com"⟩]
      (by decide) (by decide)).2.2 (by decide)⟩

/-! ## Claim C8: the selector helper -/

/-- C8: `find_and_click` clicks exactly the first candidate (in list
order) whose probe reports a visible element, and reports failure — by
returning, never by raising — exactly when no candidate's probe reports a
visible element. -/
theorem find_and_click_first_visible (probe : Probe) (sels : List String) :
    find_and_click probe sels
      = sels.find? (fun s => probe s == some true) ∧
    (find_and_click probe sels = none ↔
      ∀ s ∈ sels, probe s ≠ some true) := by
  have hfind : find_and_click probe sels
      = sels.find? (fun s => probe s == some true) := by
    induction sels with
    | nil => rfl
    | cons s rest ih =>
      by_cases h : probe s = some true
      · simp [find_and_click, List.find?, h]
      · have hb : (probe s == some true) = false := by
          simp [h]
        simp [find_and_click, List.find?, h, hb, ih]
  refine ⟨hfind, ?_⟩
  rw [hfind, List.find?_eq_none]
  constructor
  · intro h s hs hp
    have := h s hs
    simp [hp] at this
  · intro h s hs
    simp [h s hs]

/-! ## Claim C7: notification payload -/

/-- C7: the notification message carries at most the 8 most recent log
lines (a suffix of the accumulated log); on failure all captured
screenshots are attached; on success only the most recent one is. -/
theorem send_notification_payload_shape
    (logs screenshots : List String) (success : Bool) :
    (send_notification logs screenshots success).1.length ≤ 8 ∧
    (send_notification logs screenshots success).1 <:+ logs ∧
    (send_notification logs screenshots false).2 = screenshots ∧
    (screenshots ≠ [] →
      (send_notification logs screenshots true).2
        = [screenshots.getLastD ""]) := by
  refine ⟨?_, ?_, ?_, ?_⟩
  · simp only [send_notification, List.length_drop]
    omega
  · exact List.drop_suffix _ _
  · by_cases h : screenshots.isEmpty
    · rw [List.isEmpty_iff] at h
      simp [send_notification, h]
    · simp [send_notification, h]
  · intro h
    have hne : screenshots.isEmpty = false := by
      simpa [List.isEmpty_iff] using h
    simp [send_notification, hne]

/-- C7 witness: nine log lines are cut down to the last eight, and the
photo attachment rule at a concrete two-screenshot run. -/
theorem send_notification_payload_shape_witness :
    (send_notification ["l1", "l2", "l3", "l4", "l5", "l6", "l7", "l8", "l9"]
        ["01_a.png", "02_b.png"] true).1.length ≤ 8 ∧
    (send_notification ["l1", "l2", "l3", "l4", "l5", "l6", "l7", "l8", "l9"]
        ["01_a.png", "02_b.png"] false).2 = ["01_a.png", "02_b.png"] ∧
    (send_notification ["l1", "l2", "l3", "l4", "l5", "l6", "l7", "l8", "l9"]
        ["01_a.png", "02_b.png"] true).2 = ["02_b.png"] := by
  have h := send_notification_payload_shape
    ["l1", "l2", "l3", "l4", "l5", "l6", "l7", "l8", "l9"]
    ["01_a.png", "02_b.png"] true
  refine ⟨h.1, h.2.2.1, ?_⟩
  rw [h.2.2.2 (by decide)]
  rfl

/-! ## Claim C6: missing credentials -/

/-- C6: when either credential environment variable is absent, validation
fails and the run exits 1 after attempting a failure notification, with
no browser session started. -/
theorem missing_credentials_no_browser (w : World)
    (h : w.gh_username = none ∨ w.gh_password = none) :
    validate_credentials w.gh_username w.gh_password = false ∧
    (run w).exitCode = 1 ∧
    (run w).browserStarted = false ∧
    (run w).notifySuccess = some false := by
  have hv : validate_credentials w.gh_username w.gh_password = false := by
    rcases h with h | h
    · simp [validate_credentials, h, envTruthy]
    · simp [validate_credentials, h, envTruthy]
  exact ⟨hv, by simp [run, hv], by simp [run, hv], by simp [run, hv]⟩

/-- A run environment with neither credential set. -/
def worldNoCreds : World :=
  { gh_username := none, gh_password := none,
    initialUrl := "https://eu-central-1.run.claw.cloud/signin",
    buttonFound := true,
    afterClickUrl := "https://github.com/login",
    formOk := true,
    loginPage :=
      { url := "https://github.com/login", content := "",
        errorBanner := none, otpVisible := false },
    urls := fun _ => "https://eu-central-1.run.claw.cloud/",
    cookies := [], keepaliveResults := [] }

/-- C6 witness: the missing-credential theorem at a concrete environment
with both variables unset. -/
theorem missing_credentials_no_browser_witness :
    validate_credentials worldNoCreds.gh_username worldNoCreds.gh_password
        = false ∧
    (run worldNoCreds).exitCode = 1 ∧
    (run worldNoCreds).browserStarted = false ∧
    (run worldNoCreds).notifySuccess = some false :=
  missing_credentials_no_browser worldNoCreds (Or.inl rfl)

/-! ## Claim C3: incorrect-credentials banner is fatal -/

/-- C3: when the page after credential submission shows the GitHub error
banner "Incorrect username or password", `login_github` reports failure
and the run exits 1 without ever entering the redirect-wait loop. -/
theorem incorrect_password_banner_fatal (w : World)
    (hv : validate_credentials w.gh_username w.gh_password = true)
    (hs : inStr "signin" (pyLower w.initialUrl) = true)
    (hb : w.buttonFound = true)
    (hg : (inStr "github.com/login" w.afterClickUrl
        || inStr "github.com/session" w.afterClickUrl) = true)
    (he : check_github_error w.loginPage
        = some "Incorrect username or password") :
    login_github w.formOk w.loginPage = false ∧
    (run w).exitCode = 1 ∧
    (run w).reachedRedirectWait = false := by
  have hl : login_github w.formOk w.loginPage = false := by
    cases hf : w.formOk <;> simp [login_github, he]
  exact ⟨hl, by simp [run, runFromButton, hv, hs, hb, hg, hl],
    by simp [run, runFromButton, hv, hs, hb, hg, hl]⟩

/-- A run environment where GitHub rejects the credentials with the
"Incorrect username or password" banner. -/
def worldBadPassword : World :=
  { gh_username := some "user", gh_password := some "hunter2",
    initialUrl := "https://eu-central-1.run.claw.cloud/signin",
    buttonFound := true,
    afterClickUrl := "https://github.com/login",
    formOk := true,
    loginPage :=
      { url := "https://github.com/session",
        content := "Incorrect username or password.",
        errorBanner := some "Incorrect username or password",
        otpVisible := false },
    urls := fun _ => "https://github.com/session",
    cookies := [], keepaliveResults := [] }

/-- C3 witness: the banner theorem at a concrete rejected login. -/
theorem incorrect_password_banner_fatal_witness :
    login_github worldBadPassword.formOk worldBadPassword.loginPage = false ∧
    (run worldBadPassword).exitCode = 1 ∧
    (run worldBadPassword).reachedRedirectWait = false :=
  incorrect_password_banner_fatal worldBadPassword (by decide) (by decide)
    rfl (by decide) rfl

/-! ## Claim C5: device-verification and two-factor challenges are fatal -/

/-- C5: when the device-verification classifier or the two-factor
classifier is positive after credential submission, `login_github`
reports failure and the run exits 1 without entering the redirect-wait
loop — no challenge solving is attempted. -/
theorem challenge_is_fatal (w : World)
    (hv : validate_credentials w.gh_username w.gh_password = true)
    (hs : inStr "signin" (pyLower w.initialUrl) = true)
    (hb : w.buttonFound = true)
    (hg : (inStr "github.com/login" w.afterClickUrl
        || inStr "github.com/session" w.afterClickUrl) = true)
    (hc : check_device_verification w.loginPage = true
        ∨ check_2fa w.loginPage = true) :
    login_github w.formOk w.loginPage = false ∧
    (run w).exitCode = 1 ∧
    (run w).reachedRedirectWait = false := by
  have hl : login_github w.formOk w.loginPage = false := by
    cases hf : w.formOk
    · simp [login_github]
    · cases he : check_github_error w.loginPage with
      | some e => simp [login_github, he]
      | none =>
        rcases hc with h | h
        · simp [login_github, he, h]
        · by_cases hd : check_device_verification w.loginPage
          · simp [login_github, he, hd]
          · simp [login_github, he, hd, h]
  exact ⟨hl, by simp [run, runFromButton, hv, hs, hb, hg, hl],
    by simp [run, runFromButton, hv, hs, hb, hg, hl]⟩

/-- A run environment where GitHub answers with its device-verification
challenge. -/
def worldDeviceChallenge : World :=
  { gh_username := some "user", gh_password := some "hunter2",
    initialUrl := "https://eu-central-1.run.claw.cloud/signin",
    buttonFound := true,
    afterClickUrl := "https://github.com/session",
    formOk := true,
    loginPage :=
      { url := "https://github.com/sessions/verified-device",
        content := "Device verification. We sent a code. Check your email.",
        errorBanner := none,
        otpVisible := false },
    urls := fun _ => "https://github.com/sessions/verified-device",
    cookies := [], keepaliveResults := [] }

/-- C5 witness: the challenge theorem at a concrete device-verification
page. -/
theorem challenge_is_fatal_witness :
    login_github worldDeviceChallenge.formOk worldDeviceChallenge.loginPage
        = false ∧
    (run worldDeviceChallenge).exitCode = 1 ∧
    (run worldDeviceChallenge).reachedRedirectWait = false :=
  challenge_is_fatal worldDeviceChallenge (by decide) (by decide) rfl
    (by decide) (Or.inl (by decide))

/-! ## Claim C9: keepalive result is never inspected -/

/-- C9: the run's outcome does not depend on the keepalive navigation
outcomes at all; in particular, a run that reaches successful
verification exits 0 and sends a success notification even when
`keepalive` reports failure. -/
theorem keepalive_result_ignored :
    (∀ (w : World) (res : List (Option String)),
      run { w with keepaliveResults := res } = run w) ∧
    (∀ w : World,
      validate_credentials w.gh_username w.gh_password = true →
      inStr "signin" (pyLower w.initialUrl) = true →
      w.buttonFound = true →
      login_github w.formOk w.loginPage = true →
      (wait_redirect w.urls 45).1 = true →
      verify_login (w.urls (wait_redirect w.urls 45).2) w.cookies ≠ none →
      keepalive w.keepaliveResults = false →
      (run w).exitCode = 0 ∧ (run w).notifySuccess = some true) := by
  constructor
  · intro w res
    cases w
    rfl
  · intro w hv hs hb hl hr hver _
    obtain ⟨cs, hcs⟩ := Option.ne_none_iff_exists'.mp hver
    constructor <;> simp [run, runFromButton, hv, hs, hb, hl, hr, hcs]

/-- A run environment whose login succeeds but whose keepalive
navigation falls back to the sign-in page. -/
def worldKeepaliveFails : World :=
  { gh_username := some "user", gh_password := some "hunter2",
    initialUrl := "https://eu-central-1.run.claw.cloud/signin",
    buttonFound := true,
    afterClickUrl := "https://github.com/login",
    formOk := true,
    loginPage :=
      { url := "https://eu-central-1.run.claw.cloud/",
        content := "", errorBanner := none, otpVisible := false },
    urls := fun _ => "https://eu-central-1.run.claw.cloud/",
    cookies := [⟨"token", "t", ".claw.cloud"⟩],
    keepaliveResults := [some "https://eu-central-1.run.claw.cloud/signin"] }

/-- C9 witness: at this concrete environment keepalive reports failure,
yet the run exits 0 with a success notification. -/
theorem keepalive_result_ignored_witness :
    keepalive worldKeepaliveFails.keepaliveResults = false ∧
    (run worldKeepaliveFails).exitCode = 0 ∧
    (run worldKeepaliveFails).notifySuccess = some true :=
  ⟨by decide,
   keepalive_result_ignored.2 worldKeepaliveFails (by decide) (by decide)
     rfl (by decide) (by decide) (by decide) (by decide)⟩

/-! ## Claim C10: lingering on the login page is treated as success -/

/-- Page still on GitHub's session path whose content lacks both the
incorrect-credentials text and the rate-limit marker, but which shows a
generic error banner. -/
def pageStillLogin : PageAfterLogin :=
  { url := "https://github.com/session",
    content := "There was a problem authenticating. Please try again.",
    errorBanner := some "There was a problem authenticating. Please try again.",
    otpVisible := false }

/-- C10 counterexample: a page that is still on the login/session path
and contains neither the incorrect-credentials text nor the rate-limit
marker, on which `login_github` nevertheless reports failure (a generic
error banner is visible), so the claim's conditions alone do not make the
login step return success. -/
theorem still_on_login_not_always_success :
    inStr "github.com/session" pageStillLogin.url = true ∧
    inStr "Incorrect username or password" pageStillLogin.content = false ∧
    inStr "too many" (pyLower pageStillLogin.content) = false ∧
    login_github true pageStillLogin = false :=
  ⟨by decide, by decide, by decide, by decide⟩

/-- C10 (amended): when after credential submission the URL still matches
the login/session path, the content contains neither the
incorrect-credentials text nor the rate-limit marker, and additionally no
error banner is shown and the device-verification and two-factor
classifiers are negative, `login_github` returns success and the run
proceeds to the redirect-wait loop despite remaining on the login page. -/
theorem still_on_login_proceeds (w : World)
    (hv : validate_credentials w.gh_username w.gh_password = true)
    (hs : inStr "signin" (pyLower w.initialUrl) = true)
    (hb : w.buttonFound = true)
    (hf : w.formOk = true)
    (he : check_github_error w.loginPage = none)
    (hd : check_device_verification w.loginPage = false)
    (h2 : check_2fa w.loginPage = false)
    (hurl : (inStr "github.com/login" w.loginPage.url
        || inStr "github.com/session" w.loginPage.url) = true)
    (hc1 : inStr "Incorrect username or password" w.loginPage.content
        = false)
    (hc2 : inStr "too many" (pyLower w.loginPage.content) = false) :
    login_github w.formOk w.loginPage = true ∧
    (run w).reachedRedirectWait = true := by
  have hl : login_github w.formOk w.loginPage = true := by
    simp [login_github, hf, he, hd, h2, hurl, hc1, hc2]
  refine ⟨hl, ?_⟩
  simp only [run, runFromButton, hv, hs, hb, hl]
  simp only [Bool.not_true, Bool.false_eq_true, if_false, Bool.and_false,
    Bool.not_false, if_true]
  split
  · rfl
  · split <;> rfl

/-- A run environment in which the page after submission is still on the
session path with neutral content ("still loading"). -/
def worldStillLoading : World :=
  { gh_username := some "user", gh_password := some "hunter2",
    initialUrl := "https://eu-central-1.run.claw.cloud/signin",
    buttonFound := true,
    afterClickUrl := "https://github.com/session",
    formOk := true,
    loginPage :=
      { url := "https://github.com/session",
        content := "<html><body>Loading</body></html>",
        errorBanner := none, otpVisible := false },
    urls := fun _ => "https://github.com/session",
    cookies := [], keepaliveResults := [] }

/-- C10 witness: the amended theorem at a concrete still-loading page. -/
theorem still_on_login_proceeds_witness :
    login_github worldStillLoading.formOk worldStillLoading.loginPage
        = true ∧
    (run worldStillLoading).reachedRedirectWait = true :=
  still_on_login_proceeds worldStillLoading (by decide) (by decide) rfl rfl
    rfl (by decide) (by decide) (by decide) (by decide) (by decide)
